import Mathlib

/-
Shallow embedding of `src/lib/fuffr.js` from schteppe/fuffrboxing.

The library keeps two pieces of mutable state (a callback-id counter and a
callback table), builds `@`-delimited command strings, and hands them to a
native bridge (`fuffr.internal.callNative`).  The embedding below models the
state explicitly, models JavaScript values appearing in callback positions by
the inductive `JSVal` (with JS truthiness and `typeof`), and models each API
function as a pure function returning its result, the successor state and the
list of command strings passed to `callNative`.
-/

namespace Fuffr

/-! ### Constant enumerations (fuffr.FFRSide*, fuffr.FFRGesture*) -/

def FFRSideTop : Int := 1
def FFRSideBottom : Int := 2
def FFRSideLeft : Int := 4
def FFRSideRight : Int := 8

def FFRGesturePan : Int := 1
def FFRGesturePinch : Int := 2
def FFRGestureRotate : Int := 3
def FFRGestureTap : Int := 4
def FFRGestureDoubleTap : Int := 5
def FFRGestureLongPress : Int := 6
def FFRGestureSwipeLeft : Int := 7
def FFRGestureSwipeRight : Int := 8
def FFRGestureSwipeUp : Int := 9
def FFRGestureSwipeDown : Int := 10

def FFRGestureRecognizerStateUnknown : Int := 0
def FFRGestureRecognizerStateBegan : Int := 1
def FFRGestureRecognizerStateChanged : Int := 2
def FFRGestureRecognizerStateEnded : Int := 3

/-! ### JavaScript values in callback positions

`α` is the type of handler functions; all other constructors model
non-function JS values that a caller may pass where a callback is expected. -/

inductive JSVal (α : Type) where
  | vUndefined
  | vNull
  | vBool (b : Bool)
  | vNum (n : Int)
  | vStr (s : String)
  | vFun (f : α)
deriving DecidableEq

/-- JS truthiness of a `JSVal` (NaN is not modelled). -/
def JSVal.truthy {α : Type} : JSVal α → Bool
  | .vUndefined => false
  | .vNull => false
  | .vBool b => b
  | .vNum n => n != 0
  | .vStr s => s != ""
  | .vFun _ => true

/-- The JS `typeof` operator on a `JSVal`. -/
def JSVal.typeof {α : Type} : JSVal α → String
  | .vUndefined => "undefined"
  | .vNull => "object"
  | .vBool _ => "boolean"
  | .vNum _ => "number"
  | .vStr _ => "string"
  | .vFun _ => "function"

/-! ### Gesture parameters -/

/-- The recognized fields of the optional `params` object of `addGesture`;
`none` models an absent field (reading it yields `undefined`). -/
structure GestureParams where
  maximumDuration : Option Int
  minimumDuration : Option Int
  maximumDistance : Option Int
  minimumDistance : Option Int
deriving DecidableEq

/-- JS truthiness of reading an optional numeric field: absent fields read as
`undefined` (falsy) and the number `0` is falsy. -/
def numTruthy : Option Int → Bool
  | some v => v != 0
  | none => false

/-- String interpolation of an optional numeric field (JS renders an absent
field as "undefined"; under a truthiness guard this case is unreachable). -/
def optIntText : Option Int → String
  | some v => toString v
  | none => "undefined"

/-- The duration-parameter block of `addGesture`:
`if (params.maximumDuration) ... else if (params.minimumDuration) ...`.
The wire labels are the source's literal strings, misspellings included. -/
def durationParamText (params : GestureParams) : String :=
  if numTruthy params.maximumDuration then
    "maximumDistance@" ++ optIntText params.maximumDuration ++ "@"
  else if numTruthy params.minimumDuration then
    "minumumDistance@" ++ optIntText params.minimumDuration ++ "@"
  else
    ""

/-- The distance-parameter block of `addGesture`:
`if (params.maximumDistance) ... else if (params.minimumDistance) ...`. -/
def distanceParamText (params : GestureParams) : String :=
  if numTruthy params.maximumDistance then
    "maximumDistance@" ++ optIntText params.maximumDistance ++ "@"
  else if numTruthy params.minimumDistance then
    "minumumDistance@" ++ optIntText params.minimumDistance ++ "@"
  else
    ""

/-- The whole `if (params) { duration block; distance block }` of `addGesture`;
`none` models a falsy `params` value such as `null`. -/
def gestureParamsText : Option GestureParams → String
  | some params => durationParamText params ++ distanceParamText params
  | none => ""

/-! ### The hidden module state -/

/-- The two module-local variables: `callbackIdCounter` and `callbackTable`.
The table maps integer ids to the stored JS value (JS objects map each key to
at most one value, hence a function into `Option`). -/
structure FuffrState (α : Type) where
  callbackIdCounter : Nat
  callbackTable : Nat → Option (JSVal α)

/-- The state at script load: counter `0`, empty table. -/
def initState (α : Type) : FuffrState α := ⟨0, fun _ => none⟩

/-- JS property assignment `callbackTable[k] = v`. -/
def tableSet {α : Type} (t : Nat → Option (JSVal α)) (k : Nat) (v : JSVal α) :
    Nat → Option (JSVal α) :=
  fun i => if i = k then some v else t i

/-- JS `delete callbackTable[k]`. -/
def tableDelete {α : Type} (t : Nat → Option (JSVal α)) (k : Nat) :
    Nat → Option (JSVal α) :=
  fun i => if i = k then none else t i

/-! ### Internal registry functions -/

/-- `fuffr.internal.addCallback`: `++callbackIdCounter`, store, return the id. -/
def addCallback {α : Type} (callbackFun : JSVal α) (s : FuffrState α) :
    Nat × FuffrState α :=
  let callbackId := s.callbackIdCounter + 1
  (callbackId, ⟨callbackId, tableSet s.callbackTable callbackId callbackFun⟩)

/-- `fuffr.internal.removeCallback`: `delete callbackTable[gestureId]`. -/
def removeCallback {α : Type} (gestureId : Nat) (s : FuffrState α) : FuffrState α :=
  ⟨s.callbackIdCounter, tableDelete s.callbackTable gestureId⟩

/-- Outcome of `fuffr.internal.performCallback`: no entry (or a falsy entry)
gives a silent no-op; a stored function is invoked once with the forwarded
arguments; a truthy non-function entry would make `callbackFun.apply` throw. -/
inductive DispatchResult (α : Type) where
  | noop
  | invoked (f : α) (args : List Int)
  | typeError
deriving DecidableEq

/-- `callbackFun.apply(null, args)` on a JS value. -/
def jsApply {α : Type} : JSVal α → List Int → DispatchResult α
  | .vFun f, args => .invoked f args
  | _, _ => .typeError

/-- `fuffr.internal.performCallback(gestureId, ...)`.  The source receives the
id as `arguments[0]` and shifts it off before applying the handler, so the
handler sees only `extraArgs`; the state is returned unchanged. -/
def performCallback {α : Type} (gestureId : Nat) (extraArgs : List Int)
    (s : FuffrState α) : DispatchResult α × FuffrState α :=
  let callbackFun := (s.callbackTable gestureId).getD .vUndefined
  if callbackFun.truthy then
    (jsApply callbackFun extraArgs, s)
  else
    (.noop, s)

/-! ### Public API functions

Each function returns (besides its result and the successor state) the list
of command strings it passes to `fuffr.internal.callNative`, in order. -/

/-- `fuffr.enableSides(sides, touchesPerSide, win, fail)`: the command strings
sent through `callNative`. -/
def enableSides (sides touchesPerSide : Int) : List String :=
  ["enableSides@" ++ toString sides ++ "@" ++ toString touchesPerSide ++ "@"]

/-- `fuffr.log(message, win, fail)`: the command strings sent. -/
def logCommand (message : String) : List String :=
  ["consoleLog@" ++ message ++ "@"]

/-- `fuffr.updateFirmware(win, fail)`: the command strings sent. -/
def updateFirmware : List String :=
  ["updateFirmware@"]

/-- The `arguments` of a call to the variadic `fuffr.addGesture`.  The source
inspects `arguments.length`: with 4 arguments `params = args[2]` and
`callback = args[3]`; with 3 arguments `callback = args[2]`; at any other
arity both `params` and `callback` keep their initial value `null`. -/
inductive AddGestureCall (α : Type) where
  | args3 (gestureType sides : Int) (callback : JSVal α)
  | args4 (gestureType sides : Int) (params : Option GestureParams)
      (callback : JSVal α)
  | argsOther (count : Nat)
deriving DecidableEq

/-- The value of the local `callback` variable after the arity dispatch. -/
def AddGestureCall.callback {α : Type} : AddGestureCall α → JSVal α
  | .args3 _ _ cb => cb
  | .args4 _ _ _ cb => cb
  | .argsOther _ => .vNull

/-- The value of the local `gestureType` variable (`args[0]`; at arity 0 it is
`undefined`, but the guard makes that case unreachable, so `0` stands in). -/
def AddGestureCall.gestureType {α : Type} : AddGestureCall α → Int
  | .args3 t _ _ => t
  | .args4 t _ _ _ => t
  | .argsOther _ => 0

/-- The value of the local `sides` variable (`args[1]`). -/
def AddGestureCall.sides {α : Type} : AddGestureCall α → Int
  | .args3 _ sd _ => sd
  | .args4 _ sd _ _ => sd
  | .argsOther _ => 0

/-- The value of the local `params` variable (`null` unless arity is 4). -/
def AddGestureCall.params {α : Type} : AddGestureCall α → Option GestureParams
  | .args3 _ _ _ => none
  | .args4 _ _ p _ => p
  | .argsOther _ => none

/-- `fuffr.addGesture`: guard `if (!callback && typeof callback != 'function')
return`, then `gestureId = ++callbackIdCounter`, store the callback, build the
message and send it.  Returns the JS return value (`none` models the bare
`return`, i.e. `undefined`), the successor state and the sent commands. -/
def addGesture {α : Type} (call : AddGestureCall α) (s : FuffrState α) :
    Option Nat × FuffrState α × List String :=
  let callback := call.callback
  if !callback.truthy && callback.typeof != "function" then
    (none, s, [])
  else
    let gestureId := s.callbackIdCounter + 1
    let s1 : FuffrState α := ⟨gestureId, tableSet s.callbackTable gestureId callback⟩
    let message :=
      "addGesture@" ++ toString call.gestureType ++ "@" ++ toString call.sides
        ++ "@" ++ toString gestureId ++ "@" ++ gestureParamsText call.params
    (some gestureId, s1, [message])

/-- `fuffr.removeGesture(gestureId)`: `removeCallback` first, then send
`removeGesture@<id>@`. -/
def removeGesture {α : Type} (gestureId : Nat) (s : FuffrState α) :
    FuffrState α × List String :=
  let s1 := removeCallback gestureId s
  (s1, ["removeGesture@" ++ toString gestureId ++ "@"])

/-- `fuffr.removeAllGestures()`: only sends `removeAllGestures@`; the source's
own TODO comment notes that the callbacks are not removed. -/
def removeAllGestures {α : Type} (s : FuffrState α) : FuffrState α × List String :=
  (s, ["removeAllGestures@"])

/-! ### Bridge transport (`fuffr.internal.callNative`) -/

/-- The request URL built by `callNative`: `'fuffr-bridge@' + command`. -/
def requestUrl (command : String) : String :=
  "fuffr-bridge@" ++ command

/-- Callback invocations performed by the `onreadystatechange` handler. -/
inductive TransportEvent where
  | success (responseText : String)
  | failure (status : Int)
deriving DecidableEq

/-- The `onreadystatechange` handler of `callNative`: at `readyState === 4`,
status `200` runs `win && win(request.responseText)` and any other status runs
`fail && fail(request.status)`.  `hasWin`/`hasFail` model the truthiness of
the optional `win`/`fail` arguments; the result lists the invocations made. -/
def onReadyStateChange (hasWin hasFail : Bool) (readyState status : Int)
    (responseText : String) : List TransportEvent :=
  if readyState == 4 then
    if status == 200 then
      if hasWin then [.success responseText] else []
    else
      if hasFail then [.failure status] else []
  else
    []

/-! ### Operation traces over the registry state -/

/-- One call into the library, for reasoning about sequences of calls. -/
inductive FuffrOp (α : Type) where
  | opAddGesture (call : AddGestureCall α)
  | opAddCallback (callbackFun : JSVal α)
  | opRemoveGesture (gestureId : Nat)
  | opRemoveCallback (gestureId : Nat)
  | opRemoveAllGestures
  | opPerformCallback (gestureId : Nat) (extraArgs : List Int)

/-- The state after one operation. -/
def stepState {α : Type} (op : FuffrOp α) (s : FuffrState α) : FuffrState α :=
  match op with
  | .opAddGesture call => (addGesture call s).2.1
  | .opAddCallback f => (addCallback f s).2
  | .opRemoveGesture id => (removeGesture id s).1
  | .opRemoveCallback id => removeCallback id s
  | .opRemoveAllGestures => (removeAllGestures s).1
  | .opPerformCallback id args => (performCallback id args s).2

/-- The state after a sequence of operations. -/
def runState {α : Type} : List (FuffrOp α) → FuffrState α → FuffrState α
  | [], s => s
  | op :: ops, s => runState ops (stepState op s)

/-- Whether an operation allocates a fresh callback identifier (`addCallback`
always does; `addGesture` does unless its guard rejects the callback). -/
def allocates {α : Type} : FuffrOp α → Bool
  | .opAddGesture call =>
      !(!call.callback.truthy && call.callback.typeof != "function")
  | .opAddCallback _ => true
  | _ => false

/-- The identifiers handed out along a sequence of operations, in order. -/
def issuedIds {α : Type} : List (FuffrOp α) → FuffrState α → List Nat
  | [], _ => []
  | op :: ops, s =>
      let here : List Nat :=
        match op with
        | .opAddGesture call =>
            match (addGesture call s).1 with
            | some id => [id]
            | none => []
        | .opAddCallback f => [(addCallback f s).1]
        | _ => []
      here ++ issuedIds ops (stepState op s)

/-- All keys of the callback table are bounded by the counter. -/
def keysBounded {α : Type} (s : FuffrState α) : Prop :=
  ∀ id, s.callbackIdCounter < id → s.callbackTable id = none

/-- The spec's Command Encoder contract, following the spec's words: given a
verb and ordered arguments, produce the delimited string where every
argument, including the last, is followed by the delimiter.  This definition
is deliberately written from the specification, to be compared against the
command strings the source-derived API functions produce. -/
def specEncodeCommand (verb : String) (args : List String) : String :=
  verb ++ "@" ++ String.join (args.map fun a => a ++ "@")

/-! ### Helper lemmas -/

/-- The guard `!callback && typeof callback != 'function'` is equivalent to
plain falsiness: a function value is always truthy, so whenever the first
conjunct holds, the `typeof` conjunct holds as well. -/
theorem rejectGuard_eq {α : Type} (cb : JSVal α) :
    (!cb.truthy && cb.typeof != "function") = !cb.truthy := by
  cases cb <;> simp [JSVal.truthy, JSVal.typeof]

/-- A falsy JS value is never a function. -/
theorem typeof_ne_function_of_falsy {α : Type} (cb : JSVal α)
    (h : cb.truthy = false) : cb.typeof ≠ "function" := by
  cases cb <;> simp_all [JSVal.truthy, JSVal.typeof]

/-- `addGesture` with a falsy callback value takes the early `return`:
no result, unchanged state, nothing sent. -/
theorem addGesture_of_falsy {α : Type} (call : AddGestureCall α) (s : FuffrState α)
    (h : call.callback.truthy = false) : addGesture call s = (none, s, []) := by
  simp [addGesture, rejectGuard_eq, h, typeof_ne_function_of_falsy call.callback h]

/-- `addGesture` with a truthy callback value allocates `counter + 1`, stores
the callback there, and sends the encoded command. -/
theorem addGesture_of_truthy {α : Type} (call : AddGestureCall α) (s : FuffrState α)
    (h : call.callback.truthy = true) :
    addGesture call s =
      (some (s.callbackIdCounter + 1),
       ⟨s.callbackIdCounter + 1,
        tableSet s.callbackTable (s.callbackIdCounter + 1) call.callback⟩,
       ["addGesture@" ++ toString call.gestureType ++ "@" ++ toString call.sides
          ++ "@" ++ toString (s.callbackIdCounter + 1) ++ "@"
          ++ gestureParamsText call.params]) := by
  simp [addGesture, rejectGuard_eq, h]

/-- `performCallback` never changes the state. -/
theorem performCallback_state {α : Type} (gestureId : Nat) (extraArgs : List Int)
    (s : FuffrState α) : (performCallback gestureId extraArgs s).2 = s := by
  simp only [performCallback]
  split <;> rfl

theorem keysBounded_init (α : Type) : keysBounded (initState α) := fun _ _ => rfl

theorem keysBounded_step {α : Type} (op : FuffrOp α) (s : FuffrState α)
    (h : keysBounded s) : keysBounded (stepState op s) := by
  cases op with
  | opAddGesture call =>
    rcases hcb : call.callback.truthy with _ | _
    · simp only [stepState, addGesture_of_falsy call s hcb]
      exact h
    · simp only [stepState, addGesture_of_truthy call s hcb]
      intro id hid
      simp only [tableSet]
      dsimp only at hid ⊢
      rw [if_neg (by omega)]
      exact h id (by omega)
  | opAddCallback f =>
    intro id hid
    simp only [stepState, addCallback, tableSet] at hid ⊢
    rw [if_neg (by omega)]
    exact h id (by omega)
  | opRemoveGesture gid =>
    intro id hid
    simp only [stepState, removeGesture, removeCallback, tableDelete] at hid ⊢
    split
    · rfl
    · exact h id hid
  | opRemoveCallback gid =>
    intro id hid
    simp only [stepState, removeCallback, tableDelete] at hid ⊢
    split
    · rfl
    · exact h id hid
  | opRemoveAllGestures => exact h
  | opPerformCallback gid args =>
    simpa only [stepState, performCallback_state] using h

theorem keysBounded_run {α : Type} (ops : List (FuffrOp α)) (s : FuffrState α)
    (h : keysBounded s) : keysBounded (runState ops s) := by
  induction ops generalizing s with
  | nil => exact h
  | cons op ops ih => exact ih (stepState op s) (keysBounded_step op s h)

/-- An existing table entry survives any further operation unchanged, except
possibly by deletion: new registrations only ever write at `counter + 1`,
which is above every existing key. -/
theorem stepState_preserves_entry {α : Type} (op : FuffrOp α) (s : FuffrState α)
    (id : Nat) (v : JSVal α) (hb : keysBounded s) (h : s.callbackTable id = some v) :
    (stepState op s).callbackTable id = some v ∨
      (stepState op s).callbackTable id = none := by
  have hle : id ≤ s.callbackIdCounter := by
    by_contra hlt
    rw [hb id (by omega)] at h
    exact Option.noConfusion h
  cases op with
  | opAddGesture call =>
    rcases hcb : call.callback.truthy with _ | _
    · simp only [stepState, addGesture_of_falsy call s hcb]
      exact Or.inl h
    · simp only [stepState, addGesture_of_truthy call s hcb, tableSet]
      rw [if_neg (by omega)]
      exact Or.inl h
  | opAddCallback f =>
    simp only [stepState, addCallback, tableSet]
    rw [if_neg (by omega)]
    exact Or.inl h
  | opRemoveGesture gid =>
    simp only [stepState, removeGesture, removeCallback, tableDelete]
    split
    · exact Or.inr rfl
    · exact Or.inl h
  | opRemoveCallback gid =>
    simp only [stepState, removeCallback, tableDelete]
    split
    · exact Or.inr rfl
    · exact Or.inl h
  | opRemoveAllGestures => exact Or.inl h
  | opPerformCallback gid args =>
    rw [stepState, performCallback_state]
    exact Or.inl h

/-- `addGesture` allocates exactly when the callback value is truthy. -/
theorem allocates_opAddGesture {α : Type} (call : AddGestureCall α) :
    allocates (.opAddGesture call) = call.callback.truthy := by
  simp [allocates, rejectGuard_eq]

/-- Issued identifiers form the contiguous range starting one above the
counter, and the final counter is the old counter plus the number of
allocating operations. -/
theorem issuedIds_spec {α : Type} (ops : List (FuffrOp α)) (s : FuffrState α) :
    issuedIds ops s
        = List.range' (s.callbackIdCounter + 1)
            (List.countP (fun op => allocates op) ops) ∧
      (runState ops s).callbackIdCounter
        = s.callbackIdCounter + List.countP (fun op => allocates op) ops := by
  induction ops generalizing s with
  | nil => simp [issuedIds, runState]
  | cons op ops ih =>
    cases op with
    | opAddGesture call =>
      rcases hcb : call.callback.truthy with _ | _
      · have halloc : allocates (FuffrOp.opAddGesture call) = false := by
          rw [allocates_opAddGesture, hcb]
        rw [List.countP_cons_of_neg _ _ (by simp [halloc])]
        have hstep : stepState (FuffrOp.opAddGesture call) s = s := by
          simp [stepState, addGesture_of_falsy call s hcb]
        constructor
        · simp only [issuedIds, addGesture_of_falsy call s hcb, hstep]
          exact (ih s).1
        · simp only [runState, hstep]
          exact (ih s).2
      · have halloc : allocates (FuffrOp.opAddGesture call) = true := by
          rw [allocates_opAddGesture, hcb]
        rw [List.countP_cons_of_pos _ _ (by simp [halloc])]
        have hstep : stepState (FuffrOp.opAddGesture call) s =
            ⟨s.callbackIdCounter + 1,
             tableSet s.callbackTable (s.callbackIdCounter + 1) call.callback⟩ := by
          simp [stepState, addGesture_of_truthy call s hcb]
        constructor
        · simp only [issuedIds, addGesture_of_truthy call s hcb, hstep]
          rw [(ih _).1]
          simp [List.range'_succ]
        · simp only [runState, hstep]
          rw [(ih _).2]
          dsimp only
          omega
    | opAddCallback f =>
      rw [List.countP_cons_of_pos _ _ (by simp [allocates])]
      have hstep : stepState (FuffrOp.opAddCallback f) s =
          ⟨s.callbackIdCounter + 1,
           tableSet s.callbackTable (s.callbackIdCounter + 1) f⟩ := rfl
      constructor
      · simp only [issuedIds, addCallback, hstep]
        rw [(ih _).1]
        simp [List.range'_succ]
      · simp only [runState, hstep]
        rw [(ih _).2]
        dsimp only
        omega
    | opRemoveGesture gid =>
      rw [List.countP_cons_of_neg _ _ (by simp [allocates])]
      exact ⟨(ih _).1, (ih _).2⟩
    | opRemoveCallback gid =>
      rw [List.countP_cons_of_neg _ _ (by simp [allocates])]
      exact ⟨(ih _).1, (ih _).2⟩
    | opRemoveAllGestures =>
      rw [List.countP_cons_of_neg _ _ (by simp [allocates])]
      exact ⟨(ih _).1, (ih _).2⟩
    | opPerformCallback gid args =>
      rw [List.countP_cons_of_neg _ _ (by simp [allocates])]
      have hstep : stepState (FuffrOp.opPerformCallback gid args) s = s := by
        rw [stepState, performCallback_state]
      constructor
      · simp only [issuedIds, hstep]
        exact (ih _).1
      · simp only [runState, hstep]
        exact (ih _).2

/-! ### Claim theorems -/

/-- C4: for every identifier registered with handler `f`, `performCallback`
with that identifier and arguments `a`, `b` invokes `f` exactly once with
exactly `[a, b]` (the identifier itself is shifted off and not passed), and
for every identifier absent from the table it is a silent no-op; in both
cases the registry state is unchanged. -/
theorem performCallback_dispatch_semantics {α : Type} (s : FuffrState α)
    (id : Nat) (f : α) (a b : Int) (id2 : Nat) (args2 : List Int)
    (h : s.callbackTable id = some (.vFun f)) (h2 : s.callbackTable id2 = none) :
    performCallback id [a, b] s = (.invoked f [a, b], s) ∧
      performCallback id2 args2 s = (.noop, s) := by
  constructor
  · simp [performCallback, h, jsApply, JSVal.truthy]
  · simp [performCallback, h2, JSVal.truthy]

theorem performCallback_dispatch_semantics_witness :
    performCallback 1 [10, 20] (addCallback (JSVal.vFun (5 : Nat)) (initState Nat)).2
        = (.invoked 5 [10, 20], (addCallback (JSVal.vFun (5 : Nat)) (initState Nat)).2) ∧
      performCallback 2 [7] (addCallback (JSVal.vFun (5 : Nat)) (initState Nat)).2
        = (.noop, (addCallback (JSVal.vFun (5 : Nat)) (initState Nat)).2) :=
  performCallback_dispatch_semantics _ 1 5 10 20 2 [7] rfl rfl

/-- C5: `removeAllGestures` sends exactly the bulk command and leaves both
the counter and the callback table untouched, so a previously registered
identifier still dispatches to its handler afterwards. -/
theorem removeAllGestures_leaves_registry {α : Type} (s : FuffrState α)
    (id : Nat) (f : α) (args : List Int)
    (h : s.callbackTable id = some (.vFun f)) :
    removeAllGestures s = (s, ["removeAllGestures@"]) ∧
      (performCallback id args (removeAllGestures s).1).1 = .invoked f args := by
  refine ⟨rfl, ?_⟩
  simp [removeAllGestures, performCallback, h, jsApply, JSVal.truthy]

theorem removeAllGestures_leaves_registry_witness :
    removeAllGestures (addCallback (JSVal.vFun (5 : Nat)) (initState Nat)).2
        = ((addCallback (JSVal.vFun (5 : Nat)) (initState Nat)).2, ["removeAllGestures@"]) ∧
      (performCallback 1 [3]
        (removeAllGestures (addCallback (JSVal.vFun (5 : Nat)) (initState Nat)).2).1).1
        = .invoked 5 [3] :=
  removeAllGestures_leaves_registry _ 1 5 [3] rfl

/-- C6: `removeGesture` removes the table entry for the identifier first (a
no-op when absent) and then sends exactly `removeGesture@<id>@`, whether or
not the identifier was registered; afterwards no dispatch for that
identifier invokes a handler. -/
theorem removeGesture_unregisters_and_sends {α : Type} (s : FuffrState α)
    (gestureId : Nat) (args : List Int) :
    removeGesture gestureId s
        = (removeCallback gestureId s, ["removeGesture@" ++ toString gestureId ++ "@"]) ∧
      (removeGesture gestureId s).1.callbackTable gestureId = none ∧
      (performCallback gestureId args (removeGesture gestureId s).1).1 = .noop := by
  refine ⟨rfl, ?_, ?_⟩
  · simp [removeGesture, removeCallback, tableDelete]
  · simp [removeGesture, removeCallback, tableDelete, performCallback, JSVal.truthy]

/-- C7: `fuffr.enableSides` with a sides bitmask in `[0, 15]` and a
nonnegative touch count produces and sends exactly
`enableSides@<sides>@<touchesPerSide>@`, which coincides with the spec's
Command Encoder applied to verb `enableSides` and those two arguments. -/
theorem enableSides_wire_format (sides touchesPerSide : Int)
    (_h0 : 0 ≤ sides) (_h15 : sides ≤ 15) (_hn : 0 ≤ touchesPerSide) :
    enableSides sides touchesPerSide
        = ["enableSides@" ++ toString sides ++ "@" ++ toString touchesPerSide ++ "@"] ∧
      enableSides sides touchesPerSide
        = [specEncodeCommand "enableSides" [toString sides, toString touchesPerSide]] := by
  refine ⟨rfl, ?_⟩
  simp [enableSides, specEncodeCommand, String.join, List.foldl,
    String.empty_append, String.append_assoc]

theorem enableSides_wire_format_witness :
    enableSides 5 2
        = ["enableSides@" ++ toString (5 : Int) ++ "@" ++ toString (2 : Int) ++ "@"] ∧
      enableSides 5 2
        = [specEncodeCommand "enableSides" [toString (5 : Int), toString (2 : Int)]] :=
  enableSides_wire_format 5 2 (by decide) (by decide) (by decide)

/-- C8: in `callNative`'s response handler, a completed response
(`readyState` 4) with status 200 invokes the success callback with the
response payload, and any other status invokes the failure callback with
that numeric status; an omitted callback makes the corresponding outcome a
silent no-op. -/
theorem callNative_status_handling (hasWin hasFail : Bool) (status : Int)
    (responseText : String) :
    (status = 200 →
      onReadyStateChange hasWin hasFail 4 status responseText
        = if hasWin then [.success responseText] else []) ∧
    (status ≠ 200 →
      onReadyStateChange hasWin hasFail 4 status responseText
        = if hasFail then [.failure status] else []) := by
  constructor
  · intro h
    subst h
    simp [onReadyStateChange]
  · intro h
    simp [onReadyStateChange, h]

theorem callNative_status_handling_witness :
    onReadyStateChange true false 4 200 "ok" = [TransportEvent.success "ok"] ∧
      onReadyStateChange false true 4 404 "" = [TransportEvent.failure 404] := by
  constructor
  · have h := (callNative_status_handling true false 200 "ok").1 rfl
    simpa using h
  · have h := (callNative_status_handling false true 404 "").2 (by decide)
    simpa using h

/-- C9: from a fresh registry, `addGesture(FFRGestureTap, FFRSideLeft, cb)`
returns identifier 1 and sends exactly `addGesture@4@4@1@` (with
`FFRGestureTap = 4` and `FFRSideLeft = 4`), and a later dispatch for
identifier 1 with no further arguments invokes `cb` with no arguments. -/
theorem addGesture_tap_left_scenario (α : Type) (cb : α) :
    FFRGestureTap = 4 ∧ FFRSideLeft = 4 ∧
      (addGesture (.args3 FFRGestureTap FFRSideLeft (.vFun cb)) (initState α)).1
        = some 1 ∧
      (addGesture (.args3 FFRGestureTap FFRSideLeft (.vFun cb)) (initState α)).2.2
        = ["addGesture@4@4@1@"] ∧
      (performCallback 1 []
        (addGesture (.args3 FFRGestureTap FFRSideLeft (.vFun cb)) (initState α)).2.1).1
        = .invoked cb [] := by
  refine ⟨rfl, rfl, rfl, ?_, rfl⟩
  with_unfolding_all rfl

/-- C1 (counterexample): a truthy non-function value in the callback position
is not rejected by `addGesture`: with the number `1` as callback, the call
returns identifier 1, advances the counter, stores the number in the table
and sends a command — contrary to the claim that any non-function callback
yields an absent result with no side effect. -/
theorem addGesture_nonfunction_callback_accepted :
    JSVal.typeof (JSVal.vNum 1 : JSVal Nat) ≠ "function" ∧
      (addGesture (AddGestureCall.args3 1 1 (JSVal.vNum 1)) (initState Nat)).1
        = some 1 ∧
      (addGesture (AddGestureCall.args3 1 1 (JSVal.vNum 1)) (initState Nat)).2.1.callbackIdCounter
        = 1 ∧
      (addGesture (AddGestureCall.args3 1 1 (JSVal.vNum 1)) (initState Nat)).2.1.callbackTable 1
        = some (JSVal.vNum 1) ∧
      (addGesture (AddGestureCall.args3 1 1 (JSVal.vNum 1)) (initState Nat)).2.2
        = ["addGesture@1@1@1@"] := by
  refine ⟨by decide, rfl, rfl, rfl, ?_⟩
  with_unfolding_all rfl

/-- C1 (amended): `addGesture` rejects — returns the absent result, registers
nothing, leaves the counter alone and sends nothing — exactly when the
callback value is falsy (in particular when fewer than 3 or more than 4
arguments are passed, so that `callback` stays `null`); with a truthy
callback value, function or not, it allocates, registers and sends. -/
theorem addGesture_rejects_exactly_falsy {α : Type} (call : AddGestureCall α)
    (s : FuffrState α) :
    (call.callback.truthy = false → addGesture call s = (none, s, [])) ∧
    (call.callback.truthy = true →
      (addGesture call s).1 = some (s.callbackIdCounter + 1) ∧
      (addGesture call s).2.1.callbackTable (s.callbackIdCounter + 1)
        = some call.callback ∧
      (addGesture call s).2.2 ≠ ([] : List String)) := by
  constructor
  · exact fun h => addGesture_of_falsy call s h
  · intro h
    rw [addGesture_of_truthy call s h]
    refine ⟨rfl, ?_, by simp⟩
    simp [tableSet]

theorem addGesture_rejects_exactly_falsy_witness :
    addGesture (AddGestureCall.args3 1 1 (JSVal.vNull : JSVal Nat)) (initState Nat)
        = (none, initState Nat, []) ∧
      (addGesture (AddGestureCall.args3 1 1 (JSVal.vFun (0 : Nat))) (initState Nat)).1
        = some 1 :=
  ⟨(addGesture_rejects_exactly_falsy _ (initState Nat)).1 rfl,
   ((addGesture_rejects_exactly_falsy
      (AddGestureCall.args3 1 1 (JSVal.vFun (0 : Nat))) (initState Nat)).2 rfl).1⟩

/-- C2: gesture parameters are appended duration-class field first, then
distance-class field, and within each class a truthy `maximum` field wins
over `minimum` (which is then dropped), with the source's literal wire
labels; in particular `addGesture(Pan, Top, {maximumDuration: 2,
minimumDuration: 5, maximumDistance: 3}, cb)` with fresh identifier `id`
sends exactly `addGesture@1@1@<id>@maximumDistance@2@maximumDistance@3@`. -/
theorem addGesture_param_priority_encoding {α : Type} (s : FuffrState α) (cb : α) :
    (∀ params : GestureParams, numTruthy params.maximumDuration = true →
        durationParamText params
          = "maximumDistance@" ++ optIntText params.maximumDuration ++ "@") ∧
    (∀ params : GestureParams, numTruthy params.maximumDistance = true →
        distanceParamText params
          = "maximumDistance@" ++ optIntText params.maximumDistance ++ "@") ∧
    (∀ params : GestureParams,
        gestureParamsText (some params)
          = durationParamText params ++ distanceParamText params) ∧
    (addGesture
        (.args4 FFRGesturePan FFRSideTop (some ⟨some 2, some 5, some 3, none⟩)
          (.vFun cb)) s).2.2
      = ["addGesture@1@1@" ++ toString (s.callbackIdCounter + 1)
          ++ "@maximumDistance@2@maximumDistance@3@"] := by
  refine ⟨?_, ?_, fun _ => rfl, ?_⟩
  · intro params h
    simp [durationParamText, h]
  · intro params h
    simp [distanceParamText, h]
  · have h1 : (addGesture
        (.args4 FFRGesturePan FFRSideTop (some ⟨some 2, some 5, some 3, none⟩)
          (.vFun cb)) s).2.2
        = [(("addGesture@1@1@" ++ toString (s.callbackIdCounter + 1)) ++ "@")
            ++ "maximumDistance@2@maximumDistance@3@"] := by
      with_unfolding_all rfl
    rw [h1, String.append_assoc]
    with_unfolding_all rfl

theorem addGesture_param_priority_encoding_witness :
    durationParamText ⟨some 2, some 5, none, none⟩
        = "maximumDistance@" ++ optIntText (some 2) ++ "@" ∧
      distanceParamText ⟨none, none, some 3, some 7⟩
        = "maximumDistance@" ++ optIntText (some 3) ++ "@" :=
  ⟨(addGesture_param_priority_encoding (initState Nat) 0).1
      ⟨some 2, some 5, none, none⟩ (by decide),
   (addGesture_param_priority_encoding (initState Nat) 0).2.1
      ⟨none, none, some 3, some 7⟩ (by decide)⟩

/-- C10: a parameter field holding `0` (falsy in JS) is treated as absent:
`{maximumDuration: 0, minimumDuration: 5}` encodes the minimum-duration
field `minumumDistance@5@` even though `maximumDuration` is a key of the
object, and `{maximumDistance: 0}` alone contributes no distance field. -/
theorem addGesture_falsy_param_fields_absent {α : Type} (s : FuffrState α)
    (cb : α) (gt sd : Int) :
    (addGesture (.args4 gt sd (some ⟨some 0, some 5, none, none⟩) (.vFun cb)) s).2.2
        = ["addGesture@" ++ toString gt ++ "@" ++ toString sd ++ "@"
            ++ toString (s.callbackIdCounter + 1) ++ "@minumumDistance@5@"] ∧
      (addGesture (.args4 gt sd (some ⟨none, none, some 0, none⟩) (.vFun cb)) s).2.2
        = ["addGesture@" ++ toString gt ++ "@" ++ toString sd ++ "@"
            ++ toString (s.callbackIdCounter + 1) ++ "@"] ∧
      durationParamText ⟨some 0, some 5, none, none⟩ = "minumumDistance@5@" ∧
      distanceParamText ⟨none, none, some 0, none⟩ = "" := by
  refine ⟨?_, ?_, by with_unfolding_all rfl, rfl⟩
  · have h1 : (addGesture
        (.args4 gt sd (some ⟨some 0, some 5, none, none⟩) (.vFun cb)) s).2.2
        = [(("addGesture@" ++ toString gt ++ "@" ++ toString sd ++ "@"
              ++ toString (s.callbackIdCounter + 1)) ++ "@") ++ "minumumDistance@5@"] := by
      with_unfolding_all rfl
    rw [h1, String.append_assoc]
    with_unfolding_all rfl
  · have h2 : (addGesture
        (.args4 gt sd (some ⟨none, none, some 0, none⟩) (.vFun cb)) s).2.2
        = [(("addGesture@" ++ toString gt ++ "@" ++ toString sd ++ "@"
              ++ toString (s.callbackIdCounter + 1)) ++ "@") ++ ""] := by
      with_unfolding_all rfl
    rw [h2, String.append_empty]

/-- C3: identifier allocation across any sequence of operations hands out the
strictly increasing sequence 1, 2, 3, … regardless of intervening removals
(the issued ids are exactly an initial range starting at 1); an entry, once
stored under an issued identifier, is never changed to a different handler
by any further operation (only kept or deleted); and the table maps each
identifier to at most one handler. -/
theorem callback_ids_strictly_increasing {α : Type} (ops : List (FuffrOp α))
    (id : Nat) (v : JSVal α) (op : FuffrOp α)
    (h : (runState ops (initState α)).callbackTable id = some v) :
    (∃ k, issuedIds ops (initState α) = List.range' 1 k) ∧
      ((stepState op (runState ops (initState α))).callbackTable id = some v ∨
        (stepState op (runState ops (initState α))).callbackTable id = none) ∧
      (∀ w, (runState ops (initState α)).callbackTable id = some w → w = v) := by
  refine ⟨⟨List.countP (fun o => allocates o) ops, ?_⟩, ?_, ?_⟩
  · exact (issuedIds_spec ops (initState α)).1
  · exact stepState_preserves_entry op _ id v
      (keysBounded_run ops _ (keysBounded_init α)) h
  · intro w hw
    rw [h] at hw
    exact (Option.some.inj hw).symm

theorem callback_ids_strictly_increasing_witness :
    (∃ k, issuedIds [FuffrOp.opAddCallback (JSVal.vNum 7)] (initState Nat)
        = List.range' 1 k) ∧
      ((stepState (FuffrOp.opAddCallback (JSVal.vNum 8))
          (runState [FuffrOp.opAddCallback (JSVal.vNum 7)] (initState Nat))).callbackTable 1
          = some (JSVal.vNum 7) ∨
        (stepState (FuffrOp.opAddCallback (JSVal.vNum 8))
          (runState [FuffrOp.opAddCallback (JSVal.vNum 7)] (initState Nat))).callbackTable 1
          = none) ∧
      (∀ w, (runState [FuffrOp.opAddCallback (JSVal.vNum 7)]
          (initState Nat)).callbackTable 1 = some w → w = JSVal.vNum 7) :=
  callback_ids_strictly_increasing [FuffrOp.opAddCallback (JSVal.vNum 7)] 1
    (JSVal.vNum 7) (FuffrOp.opAddCallback (JSVal.vNum 8)) rfl

end Fuffr
